import Mathlib

/-!
Shallow embedding of `install.py` from the Dotfiles repository.

The script is an interactive installer.  We model its observable behaviour
as a pure function from its inputs (the platform string `sys.platform`, the
first digit of the interpreter version, `sys.argv`, and the sequence of
results of reading standard input) to a trace of events (prints, file
copies, directory creations, re-source commands) together with the process
exit code.

Copy destinations of the shell commands (`cp ... ~/...`, `cp ... $ZSH/theme/`)
are modelled by `Dest`: `Dest.home rel` is the path `~/rel` (under the
invoking user's home directory) and `Dest.envZsh rel` is `$ZSH/rel` (under
the directory named by the `ZSH` environment variable).

Python semantics captured by the model:
  * `int(s)` raises `ValueError` on a non-integer string; `pyParseInt`
    returns `none` there, and a `none` outside a `try` becomes `FlowExit.exc`.
  * `input()` may raise (e.g. `EOFError`); a read is a `ReadResult`.
    In `shell_theme` the read sits inside `try ... except: pass`, so a failed
    read leaves `shell` unbound and the subsequent `int(shell)` raises
    `UnboundLocalError` — in the model, `FlowExit.exc`.
  * `sys.exit(1)` raises `SystemExit`, which is *not* a subclass of
    `Exception`, so the top-level `except Exception` does not intercept it:
    `FlowExit.sysExit c` terminates the process with code `c`.
  * an exception reaching the top level uncaught terminates the process with
    exit code 1; a normal fall-off-the-end termination has exit code 0.
-/

/-- Destination path of a shell command: either `~/rel` (under the home
directory) or `$ZSH/rel` (under the directory named by the `ZSH`
environment variable). -/
inductive Dest where
  | home (rel : String)
  | envZsh (rel : String)
  deriving DecidableEq, Repr

/-- `true` iff the destination is a path under the home directory. -/
def Dest.isHome : Dest → Bool
  | .home _ => true
  | .envZsh _ => false

/-- One observable action of the script. -/
inductive Event where
  | print (s : String)
  | copy (src : String) (dst : Dest)
  | mkdirp (dst : Dest)
  | sourceRc (dst : Dest)
  deriving DecidableEq, Repr

/-- Result of one `input()` call: a line, or a raised exception
(`EOFError`, `KeyboardInterrupt`, ...). -/
inductive ReadResult where
  | ok (s : String)
  | err
  deriving DecidableEq, Repr

/-- Read one line from the remaining input; an exhausted stream behaves as a
failing `input()` (Python raises `EOFError` at end of stdin). -/
def readLine : List ReadResult → ReadResult × List ReadResult
  | [] => (.err, [])
  | r :: rest => (r, rest)

/-- How a flow (or the dispatch) terminates:
normal return, `sys.exit code` (`SystemExit`), or a raised `Exception`. -/
inductive FlowExit where
  | normal
  | sysExit (code : Nat)
  | exc
  deriving DecidableEq, Repr

/-- The value of a nonempty run of decimal digits; `none` otherwise. -/
def digitsVal (ds : List Char) : Option Nat :=
  if ds ≠ [] ∧ ds.all Char.isDigit then
    some (ds.foldl (fun n c => 10 * n + (c.toNat - 48)) 0)
  else
    none

/-- Python's `int(s)` on a string: strip surrounding whitespace, optional
sign, then a nonempty run of digits; anything else raises (`none`). -/
def pyParseInt (s : String) : Option Int :=
  let cs :=
    ((s.data.dropWhile Char.isWhitespace).reverse.dropWhile
      Char.isWhitespace).reverse
  match cs with
  | '-' :: ds => (digitsVal ds).map fun n => -(n : Int)
  | '+' :: ds => (digitsVal ds).map fun n => (n : Int)
  | ds => (digitsVal ds).map fun n => (n : Int)

/-- `version = int(platform.python_version()[0]); version = 3 if version >= 3 else 2`:
the display tag computed from the first digit of the interpreter version. -/
def pyVersionTag (pyDigit : Nat) : Nat :=
  if pyDigit ≥ 3 then 3 else 2

/-- The startup message printed on linux:
`message.format('linux', str(version))` with `message = 'using {0} with python {1}'`. -/
def versionPrint (pyDigit : Nat) : Event :=
  .print ("using linux with python " ++ toString (pyVersionTag pyDigit))

/-- The menu header of `shell_theme`. -/
def shellMenu : List Event :=
  [.print "\n", .print "What shell you use?",
   .print "(1) bash (DEPRECATED)", .print "(2) zsh"]

/-- The prompt string printed by `input('+=> ')`. -/
def promptEv : Event := .print "+=> "

/-- The `shell_theme()` function: read a selection (the read guarded by
`try ... except: pass`), then branch on `int(shell)`. -/
def shell_theme (stdin : List ReadResult) : List Event × FlowExit :=
  let pre := shellMenu ++ [promptEv]
  match (readLine stdin).1 with
  | .err => (pre, .exc)
  | .ok s =>
    match pyParseInt s with
    | none => (pre, .exc)
    | some n =>
      if n = 1 then
        (pre ++ [.copy ".bashrc" (.home ".bashrc"), .sourceRc (.home ".bashrc")],
         .normal)
      else if n = 2 then
        (pre ++ [.copy ".zshrc" (.home ".zshrc"),
                 .copy "Disassembler.zsh-theme" (.envZsh "theme/"),
                 .sourceRc (.home ".zshrc")],
         .normal)
      else
        (pre ++ [.print "choose from the given options"], .sysExit 1)

/-- The menu header of `vim()`. -/
def vimMenu : List Event :=
  [.print "\n", .print "what do you want to install?",
   .print "(1) .vimrc", .print "(2) vim colorscheme"]

/-- The colorscheme sub-menu header of `vim()`. -/
def vimSubMenu : List Event :=
  [.print "Which colorscheme", .print "(1) tender", .print "(2) jellybeans"]

/-- The `vim()` function: unguarded read, branch on `int(choice)`, with a
nested colorscheme sub-menu on choice 2. -/
def vim (stdin : List ReadResult) : List Event × FlowExit :=
  let pre := vimMenu ++ [promptEv]
  match readLine stdin with
  | (.err, _) => (pre, .exc)
  | (.ok s, rest) =>
    match pyParseInt s with
    | none => (pre, .exc)
    | some n =>
      if n = 1 then
        (pre ++ [.copy ".vimrc" (.home ".vimrc")], .normal)
      else if n = 2 then
        let pre2 := pre ++ vimSubMenu ++ [promptEv]
        match (readLine rest).1 with
        | .err => (pre2, .exc)
        | .ok t =>
          match pyParseInt t with
          | none => (pre2, .exc)
          | some m =>
            if m = 1 then
              (pre2 ++ [.mkdirp (.home ".vim/colors"),
                        .copy "vim/colors/tender.vim" (.home ".vim/colors")],
               .normal)
            else if m = 2 then
              (pre2 ++ [.mkdirp (.home ".vim/colors"),
                        .copy "vim/colors/jellybeans.vim" (.home ".vim/colors")],
               .normal)
            else
              (pre2 ++ [.print "invalid input"], .sysExit 1)
      else
        (pre ++ [.print "choose from the given options"], .sysExit 1)

/-- The four lines printed by `banner()` given `sys.argv[0]`. -/
def bannerEvents (a0 : String) : List Event :=
  [.print ("usage " ++ a0 ++ " [...]"),
   .print "arguments:",
   .print "shell        install bash or zsh",
   .print "vim          install vimrc or colorscheme"]

/-- `banner()`: formats `sys.argv[0]` into the usage line; if `sys.argv` is
empty the indexing itself raises. -/
def runBanner (argv : List String) : List Event × FlowExit :=
  match argv.get? 0 with
  | some a0 => (bannerEvents a0, .normal)
  | none => ([], .exc)

/-- The body of the top-level `try`: dispatch on `sys.argv[1]`
(`IndexError` when absent). -/
def dispatch (argv : List String) (stdin : List ReadResult) :
    List Event × FlowExit :=
  match argv.get? 1 with
  | none => ([], .exc)
  | some a =>
    if a = "vim" then vim stdin
    else if a = "shell" then shell_theme stdin
    else runBanner argv

/-- The whole script: platform check, then the guarded dispatch.
Returns the event trace and the process exit code. -/
def install (plat : String) (pyDigit : Nat) (argv : List String)
    (stdin : List ReadResult) : List Event × Nat :=
  if plat = "linux" then
    let pre := [versionPrint pyDigit]
    let (evs, fx) := dispatch argv stdin
    match fx with
    | .normal => (pre ++ evs, 0)
    | .sysExit c => (pre ++ evs, c)
    | .exc =>
      match runBanner argv with
      | (bevs, .normal) => (pre ++ evs ++ bevs, 0)
      | (bevs, _) => (pre ++ evs ++ bevs, 1)
  else if plat = "darwin" then
    ([.print "Install it your self", .print "This is designed for linux only"], 0)
  else
    ([.print "Haha, this is not for windows"], 0)

/-- The file-copy events of a trace, as (source path, destination) pairs. -/
def copyList (evs : List Event) : List (String × Dest) :=
  evs.filterMap fun e =>
    match e with
    | .copy s d => some (s, d)
    | _ => none

/-- The six hard-coded copies the script can ever perform. -/
def fixedCopies : List (String × Dest) :=
  [(".bashrc", .home ".bashrc"),
   (".zshrc", .home ".zshrc"),
   ("Disassembler.zsh-theme", .envZsh "theme/"),
   (".vimrc", .home ".vimrc"),
   ("vim/colors/tender.vim", .home ".vim/colors"),
   ("vim/colors/jellybeans.vim", .home ".vim/colors")]

/-- The source paths of all copies in a trace. -/
def copySrcs (evs : List Event) : List String :=
  (copyList evs).map Prod.fst

example : pyParseInt "2" = some 2 := by decide
example : pyParseInt " -17 " = some (-17) := by decide
example : pyParseInt "x" = none := by decide
example : (install "linux" 3 ["install.py", "shell"] [.ok "1"]).2 = 0 := by decide
example :
    copyList (install "linux" 3 ["install.py", "shell"] [.ok "1"]).1 =
      [(".bashrc", .home ".bashrc")] := by decide
example : (install "linux" 3 ["install.py", "shell"] [.ok "3"]).2 = 1 := by decide
example : (install "linux" 3 ["install.py", "shell"] [.ok "x"]).2 = 0 := by decide
example : (install "darwin" 3 ["install.py", "shell"] [.ok "1"]).2 = 0 := by decide

/-- C1: for every unsupported platform tag (`darwin` or any value other than
`linux`), the process terminates with exit code 0 during startup and performs
no file copy. -/
theorem C1_unsupported_platform_exit_zero_no_copy
    (plat : String) (d : Nat) (argv : List String) (stdin : List ReadResult)
    (h : plat ≠ "linux") :
    (install plat d argv stdin).2 = 0 ∧
      copyList (install plat d argv stdin).1 = [] := by
  by_cases h2 : plat = "darwin" <;> simp [install, h, h2, copyList]

/-- Witness for C1 at the concrete platform `darwin`. -/
theorem C1_witness :
    "darwin" ≠ "linux" ∧
      ((install "darwin" 3 ["install.py"] []).2 = 0 ∧
        copyList (install "darwin" 3 ["install.py"] []).1 = []) :=
  ⟨by decide,
   C1_unsupported_platform_exit_zero_no_copy "darwin" 3 ["install.py"] []
     (by decide)⟩

/-- C3: on linux, for any first argument other than `vim`/`shell`, and when
no argument is given, the trace ends with the usage banner and the exit code
is 0 (the full trace is the startup message followed by the banner). -/
theorem C3_usage_banner_exit_zero (a0 arg : String) (rest : List String)
    (d : Nat) (stdin : List ReadResult)
    (h1 : arg ≠ "vim") (h2 : arg ≠ "shell") :
    install "linux" d [a0] stdin = (versionPrint d :: bannerEvents a0, 0) ∧
      install "linux" d (a0 :: arg :: rest) stdin =
        (versionPrint d :: bannerEvents a0, 0) := by
  constructor <;> simp [install, dispatch, runBanner, h1, h2]

/-- Witness for C3 at the concrete argument vector `[install.py, help]` and
at `[install.py]`. -/
theorem C3_witness :
    "help" ≠ "vim" ∧ "help" ≠ "shell" ∧
      (install "linux" 3 ["install.py"] [] =
          (versionPrint 3 :: bannerEvents "install.py", 0) ∧
        install "linux" 3 ["install.py", "help"] [] =
          (versionPrint 3 :: bannerEvents "install.py", 0)) :=
  ⟨by decide, by decide,
   C3_usage_banner_exit_zero "install.py" "help" [] 3 [] (by decide)
     (by decide)⟩

/-- C4: argument `shell` with a selection parsing to 1 copies the bash
configuration file to the home directory, and no other copy occurs; the
process exits normally (code 0). -/
theorem C4_shell_one_copies_bashrc_only (a0 : String) (args : List String)
    (d : Nat) (s : String) (hs : pyParseInt s = some 1) :
    copyList (install "linux" d (a0 :: "shell" :: args) [.ok s]).1 =
        [(".bashrc", Dest.home ".bashrc")] ∧
      (install "linux" d (a0 :: "shell" :: args) [.ok s]).2 = 0 := by
  simp [install, dispatch, shell_theme, readLine, hs, copyList, shellMenu,
    promptEv, versionPrint]

/-- Witness for C4 at the concrete input line `1`. -/
theorem C4_witness :
    pyParseInt "1" = some 1 ∧
      (copyList (install "linux" 3 ["install.py", "shell"] [.ok "1"]).1 =
          [(".bashrc", Dest.home ".bashrc")] ∧
        (install "linux" 3 ["install.py", "shell"] [.ok "1"]).2 = 0) :=
  ⟨by decide, C4_shell_one_copies_bashrc_only "install.py" [] 3 "1" (by decide)⟩

/-- C5: argument `shell` with a selection parsing to 2 copies the zsh
configuration file and then the theme file, in that order, both before the
re-source of the zsh configuration; the full trace makes the order explicit. -/
theorem C5_shell_two_zshrc_then_theme_before_source (a0 : String)
    (args : List String) (d : Nat) (s : String) (hs : pyParseInt s = some 2) :
    install "linux" d (a0 :: "shell" :: args) [.ok s] =
      ((versionPrint d :: shellMenu) ++
        [promptEv,
         .copy ".zshrc" (.home ".zshrc"),
         .copy "Disassembler.zsh-theme" (.envZsh "theme/"),
         .sourceRc (.home ".zshrc")], 0) := by
  simp [install, dispatch, shell_theme, readLine, hs, shellMenu, promptEv]

/-- Witness for C5 at the concrete input line `2`. -/
theorem C5_witness :
    pyParseInt "2" = some 2 ∧
      install "linux" 3 ["install.py", "shell"] [.ok "2"] =
        ((versionPrint 3 :: shellMenu) ++
          [promptEv,
           .copy ".zshrc" (.home ".zshrc"),
           .copy "Disassembler.zsh-theme" (.envZsh "theme/"),
           .sourceRc (.home ".zshrc")], 0) :=
  ⟨by decide,
   C5_shell_two_zshrc_then_theme_before_source "install.py" [] 3 "2"
     (by decide)⟩

/-- C6: argument `vim`, top-level selection parsing to 2 and sub-selection
parsing to 2, copies the jellybeans colorscheme into the colors directory and
does not copy the tender colorscheme. -/
theorem C6_vim_two_two_jellybeans_not_tender (a0 : String)
    (args : List String) (d : Nat) (s t : String)
    (hs : pyParseInt s = some 2) (ht : pyParseInt t = some 2) :
    copyList (install "linux" d (a0 :: "vim" :: args) [.ok s, .ok t]).1 =
        [("vim/colors/jellybeans.vim", Dest.home ".vim/colors")] ∧
      "vim/colors/tender.vim" ∉
        copySrcs (install "linux" d (a0 :: "vim" :: args) [.ok s, .ok t]).1 := by
  have h :
      copyList (install "linux" d (a0 :: "vim" :: args) [.ok s, .ok t]).1 =
        [("vim/colors/jellybeans.vim", Dest.home ".vim/colors")] := by
    simp [install, dispatch, vim, readLine, hs, ht, copyList, vimMenu,
      vimSubMenu, promptEv, versionPrint]
  exact ⟨h, by simp [copySrcs, h]⟩

/-- Witness for C6 at the concrete input lines `2`, `2`. -/
theorem C6_witness :
    pyParseInt "2" = some 2 ∧
      (copyList (install "linux" 3 ["install.py", "vim"] [.ok "2", .ok "2"]).1 =
          [("vim/colors/jellybeans.vim", Dest.home ".vim/colors")] ∧
        "vim/colors/tender.vim" ∉
          copySrcs
            (install "linux" 3 ["install.py", "vim"] [.ok "2", .ok "2"]).1) :=
  ⟨by decide,
   C6_vim_two_two_jellybeans_not_tender "install.py" [] 3 "2" "2" (by decide)
     (by decide)⟩

/-- C2: any out-of-range numeric selection — at the shell menu, the vim menu,
or the colorscheme sub-menu — exits with code 1 and performs no copy. -/
theorem C2_out_of_range_exit_one_no_copy (a0 : String) (args : List String)
    (d : Nat) (s t : String) (n m : Int)
    (hs : pyParseInt s = some n) (hn1 : n ≠ 1) (hn2 : n ≠ 2)
    (ht : pyParseInt t = some m) (hm1 : m ≠ 1) (hm2 : m ≠ 2) :
    ((install "linux" d (a0 :: "shell" :: args) [.ok s]).2 = 1 ∧
        copyList (install "linux" d (a0 :: "shell" :: args) [.ok s]).1 = []) ∧
      ((install "linux" d (a0 :: "vim" :: args) [.ok s]).2 = 1 ∧
        copyList (install "linux" d (a0 :: "vim" :: args) [.ok s]).1 = []) ∧
      ((install "linux" d (a0 :: "vim" :: args) [.ok "2", .ok t]).2 = 1 ∧
        copyList
          (install "linux" d (a0 :: "vim" :: args) [.ok "2", .ok t]).1 =
          []) := by
  have h2 : pyParseInt "2" = some 2 := by decide
  refine ⟨?_, ?_, ?_⟩ <;>
    simp [install, dispatch, shell_theme, vim, readLine, hs, ht, h2, hn1, hn2,
      hm1, hm2, copyList, shellMenu, vimMenu, vimSubMenu, promptEv,
      versionPrint]

/-- Witness for C2 at the concrete selections `3` (shell), `3` (vim) and
`2` then `0` (colorscheme sub-menu). -/
theorem C2_witness :
    pyParseInt "3" = some 3 ∧ pyParseInt "0" = some 0 ∧
      (((install "linux" 3 ["install.py", "shell"] [.ok "3"]).2 = 1 ∧
          copyList (install "linux" 3 ["install.py", "shell"] [.ok "3"]).1 =
            []) ∧
        ((install "linux" 3 ["install.py", "vim"] [.ok "3"]).2 = 1 ∧
          copyList (install "linux" 3 ["install.py", "vim"] [.ok "3"]).1 =
            []) ∧
        ((install "linux" 3 ["install.py", "vim"] [.ok "2", .ok "0"]).2 = 1 ∧
          copyList
            (install "linux" 3 ["install.py", "vim"] [.ok "2", .ok "0"]).1 =
            [])) :=
  ⟨by decide, by decide,
   C2_out_of_range_exit_one_no_copy "install.py" [] 3 "3" "0" 3 0 (by decide)
     (by decide) (by decide) (by decide) (by decide) (by decide)⟩

/-- The startup message differs from the banner line `arguments:` for every
version digit. -/
theorem arguments_ne_versionMsg (d : Nat) :
    "arguments:" ≠ "using linux with python " ++ toString (pyVersionTag d) := by
  unfold pyVersionTag
  split <;> decide

/-- C10: `sys.exit(1)` raised on an invalid numeric selection in either flow
propagates past the top-level `except Exception` handler (`SystemExit` is not
an `Exception`): the process exits with code 1 and the usage banner is not
printed (its line `arguments:` appears nowhere in the trace). -/
theorem C10_sysexit_not_caught_by_handler (a0 : String) (args : List String)
    (d : Nat) (s : String) (n : Int) (hs : pyParseInt s = some n)
    (hn1 : n ≠ 1) (hn2 : n ≠ 2) :
    ((install "linux" d (a0 :: "shell" :: args) [.ok s]).2 = 1 ∧
        Event.print "arguments:" ∉
          (install "linux" d (a0 :: "shell" :: args) [.ok s]).1) ∧
      ((install "linux" d (a0 :: "vim" :: args) [.ok s]).2 = 1 ∧
        Event.print "arguments:" ∉
          (install "linux" d (a0 :: "vim" :: args) [.ok s]).1) := by
  constructor <;>
    simp [install, dispatch, shell_theme, vim, readLine, hs, hn1, hn2,
      shellMenu, vimMenu, promptEv, versionPrint] <;>
    exact arguments_ne_versionMsg d

/-- Witness for C10 at the concrete selection `9`. -/
theorem C10_witness :
    pyParseInt "9" = some 9 ∧
      (((install "linux" 3 ["install.py", "shell"] [.ok "9"]).2 = 1 ∧
          Event.print "arguments:" ∉
            (install "linux" 3 ["install.py", "shell"] [.ok "9"]).1) ∧
        ((install "linux" 3 ["install.py", "vim"] [.ok "9"]).2 = 1 ∧
          Event.print "arguments:" ∉
            (install "linux" 3 ["install.py", "vim"] [.ok "9"]).1)) :=
  ⟨by decide,
   C10_sysexit_not_caught_by_handler "install.py" [] 3 "9" 9 (by decide)
     (by decide) (by decide)⟩

/-- C7 counterexample: with argument `shell` and the non-numeric input `x`,
the run exits with code 0, performs no copy, never prints
`choose from the given options` (so the failed value is never compared
against the menu options), and prints the usage banner instead — contrary
to the claim that the parse failure is swallowed inside the flow and the
flow proceeds to the menu comparison. -/
theorem C7_counterexample :
    (install "linux" 3 ["install.py", "shell"] [.ok "x"]).2 = 0 ∧
      copyList (install "linux" 3 ["install.py", "shell"] [.ok "x"]).1 = [] ∧
      Event.print "choose from the given options" ∉
        (install "linux" 3 ["install.py", "shell"] [.ok "x"]).1 ∧
      Event.print "arguments:" ∈
        (install "linux" 3 ["install.py", "shell"] [.ok "x"]).1 := by decide

/-- C7 amended: in the shell-theme flow only the read is guarded; a failure
to parse the input as an integer is not caught inside the flow — it
propagates to the top-level handler, which prints the usage banner, and the
process exits with code 0 without ever comparing the value against the menu
options. -/
theorem C7_parse_failure_escapes_flow_to_banner (a0 : String)
    (args : List String) (d : Nat) (s : String) (hs : pyParseInt s = none) :
    install "linux" d (a0 :: "shell" :: args) [.ok s] =
      (versionPrint d :: (shellMenu ++ [promptEv] ++ bannerEvents a0), 0) := by
  simp [install, dispatch, shell_theme, readLine, hs, runBanner, shellMenu,
    promptEv]

/-- Witness for the amended C7 at the concrete input line `x`. -/
theorem C7_witness :
    pyParseInt "x" = none ∧
      install "linux" 3 ["install.py", "shell"] [.ok "x"] =
        (versionPrint 3 ::
          (shellMenu ++ [promptEv] ++ bannerEvents "install.py"), 0) :=
  ⟨by decide,
   C7_parse_failure_escapes_flow_to_banner "install.py" [] 3 "x" (by decide)⟩

/-- C8: the interpreter-version tag has no effect on control flow — two runs
differing only in the version digit have the same exit code, the same copies,
and identical traces after the first (startup-message) event. -/
theorem C8_version_tag_only_affects_display (plat : String) (d1 d2 : Nat)
    (argv : List String) (stdin : List ReadResult) :
    (install plat d1 argv stdin).2 = (install plat d2 argv stdin).2 ∧
      copyList (install plat d1 argv stdin).1 =
        copyList (install plat d2 argv stdin).1 ∧
      (install plat d1 argv stdin).1.drop 1 =
        (install plat d2 argv stdin).1.drop 1 := by
  by_cases h : plat = "linux"
  · rcases hd : dispatch argv stdin with ⟨evs, fx⟩
    rcases hb : runBanner argv with ⟨bevs, bfx⟩
    cases fx <;> cases bfx <;>
      simp [install, h, hd, hb, copyList, versionPrint]
  · by_cases h2 : plat = "darwin" <;> simp [install, h, h2, copyList]

/-- `copyList` distributes over trace concatenation. -/
theorem copyList_append (a b : List Event) :
    copyList (a ++ b) = copyList a ++ copyList b := by
  simp [copyList]

/-- Every copy performed by `shell_theme` is one of the hard-coded pairs. -/
theorem shell_theme_copies_fixed (stdin : List ReadResult) :
    ∀ p ∈ copyList (shell_theme stdin).1, p ∈ fixedCopies := by
  intro p hp
  rcases stdin with _ | ⟨r, rest⟩
  · simp [shell_theme, readLine, copyList, shellMenu, promptEv] at hp
  · cases r with
    | err => simp [shell_theme, readLine, copyList, shellMenu, promptEv] at hp
    | ok s =>
      rcases hps : pyParseInt s with _ | n <;>
        simp [shell_theme, readLine, hps, copyList, shellMenu, promptEv] at hp
      by_cases h1 : n = 1
      · simp [h1] at hp
        simp [hp, fixedCopies]
      · by_cases h2 : n = 2 <;> simp [h1, h2] at hp
        rcases hp with hp | hp <;> simp [hp, fixedCopies]

/-- Every copy performed by `vim` is one of the hard-coded pairs. -/
theorem vim_copies_fixed (stdin : List ReadResult) :
    ∀ p ∈ copyList (vim stdin).1, p ∈ fixedCopies := by
  intro p hp
  rcases stdin with _ | ⟨r, rest⟩
  · simp [vim, readLine, copyList, vimMenu, promptEv] at hp
  · cases r with
    | err => simp [vim, readLine, copyList, vimMenu, promptEv] at hp
    | ok s =>
      rcases hps : pyParseInt s with _ | n <;>
        simp only [vim, readLine, hps] at hp
      · simp [copyList, vimMenu, promptEv] at hp
      by_cases h1 : n = 1
      · simp [h1, copyList, vimMenu, promptEv] at hp
        simp [hp, fixedCopies]
      · by_cases h2 : n = 2
        · simp only [h1, h2, if_false, if_true, reduceIte] at hp
          rcases rest with _ | ⟨r2, rest2⟩
          · simp [readLine, copyList, vimMenu, vimSubMenu, promptEv] at hp
          · cases r2 with
            | err =>
              simp [readLine, copyList, vimMenu, vimSubMenu, promptEv] at hp
            | ok t =>
              rcases hpt : pyParseInt t with _ | m <;>
                simp only [readLine, hpt] at hp
              · simp [copyList, vimMenu, vimSubMenu, promptEv] at hp
              by_cases g1 : m = 1
              · simp [g1, copyList, vimMenu, vimSubMenu, promptEv] at hp
                simp [hp, fixedCopies]
              · by_cases g2 : m = 2 <;>
                  simp [g1, g2, copyList, vimMenu, vimSubMenu, promptEv] at hp
                simp [hp, fixedCopies]
        · simp [h1, h2, copyList, vimMenu, promptEv] at hp

/-- The banner performs no copy. -/
theorem runBanner_copies_nil (argv : List String) :
    copyList (runBanner argv).1 = [] := by
  unfold runBanner
  rcases argv.get? 0 with _ | a0 <;> simp [copyList, bannerEvents]

/-- `copyList` ignores the leading startup message. -/
theorem copyList_versionPrint (d : Nat) (l : List Event) :
    copyList (versionPrint d :: l) = copyList l := by
  simp [copyList, versionPrint]

/-- Every copy performed by the dispatch is one of the hard-coded pairs. -/
theorem dispatch_copies_fixed (argv : List String) (stdin : List ReadResult) :
    ∀ p ∈ copyList (dispatch argv stdin).1, p ∈ fixedCopies := by
  intro p hp
  unfold dispatch at hp
  rcases hg : argv.get? 1 with _ | a <;> rw [hg] at hp <;> dsimp only at hp
  · simp [copyList] at hp
  · by_cases hv : a = "vim"
    · rw [if_pos hv] at hp
      exact vim_copies_fixed stdin p hp
    · rw [if_neg hv] at hp
      by_cases hsh : a = "shell"
      · rw [if_pos hsh] at hp
        exact shell_theme_copies_fixed stdin p hp
      · rw [if_neg hsh, runBanner_copies_nil] at hp
        simp at hp

/-- Every hard-coded copy pair either targets the home directory or is the
zsh theme copy, whose destination is `$ZSH/theme/`. -/
theorem fixedCopies_dest (src : String) (dst : Dest)
    (h : (src, dst) ∈ fixedCopies) :
    dst.isHome = true ∨
      (src = "Disassembler.zsh-theme" ∧ dst = Dest.envZsh "theme/") := by
  simp [fixedCopies] at h
  rcases h with ⟨h1, h2⟩ | ⟨h1, h2⟩ | ⟨h1, h2⟩ | ⟨h1, h2⟩ | ⟨h1, h2⟩ |
    ⟨h1, h2⟩ <;> subst h1 <;> subst h2 <;> simp [Dest.isHome]

/-- C9 counterexample: the run `shell`/selection 2 copies the theme file to
`$ZSH/theme/`, a destination that is not under the home directory —
contrary to the claim that every copy targets a fixed path under home. -/
theorem C9_counterexample :
    (("Disassembler.zsh-theme", Dest.envZsh "theme/") ∈
        copyList (install "linux" 3 ["install.py", "shell"] [.ok "2"]).1) ∧
      (Dest.envZsh "theme/").isHome = false := by decide

/-- C9 amended: every file copy takes a fixed, hard-coded source path
relative to the working directory to a fixed destination; every destination
is under the home directory except the zsh theme copy, whose destination is
under the directory named by the `ZSH` environment variable. -/
theorem C9_copies_fixed_paths (plat : String) (d : Nat) (argv : List String)
    (stdin : List ReadResult) (src : String) (dst : Dest)
    (h : (src, dst) ∈ copyList (install plat d argv stdin).1) :
    (src, dst) ∈ fixedCopies ∧
      (dst.isHome = true ∨
        (src = "Disassembler.zsh-theme" ∧ dst = Dest.envZsh "theme/")) := by
  have hm : (src, dst) ∈ fixedCopies := by
    by_cases hl : plat = "linux"
    · rcases hd : dispatch argv stdin with ⟨evs, fx⟩
      have hevs : ∀ p ∈ copyList evs, p ∈ fixedCopies := by
        have := dispatch_copies_fixed argv stdin
        rw [hd] at this
        exact this
      rcases hb : runBanner argv with ⟨bevs, bfx⟩
      have hbevs : copyList bevs = [] := by
        have := runBanner_copies_nil argv
        rw [hb] at this
        exact this
      cases fx <;> cases bfx <;>
        simp [install, hl, hd, hb, copyList_append, copyList_versionPrint,
          hbevs] at h <;>
        exact hevs _ h
    · by_cases hd2 : plat = "darwin" <;>
        simp [install, hl, hd2, copyList] at h
  exact ⟨hm, fixedCopies_dest src dst hm⟩

/-- Witness for the amended C9: the bash-configuration copy of a concrete
`shell`/selection-1 run. -/
theorem C9_witness :
    ((".bashrc", Dest.home ".bashrc") ∈
        copyList (install "linux" 3 ["install.py", "shell"] [.ok "1"]).1) ∧
      ((".bashrc", Dest.home ".bashrc") ∈ fixedCopies ∧
        ((Dest.home ".bashrc").isHome = true ∨
          (".bashrc" = "Disassembler.zsh-theme" ∧
            Dest.home ".bashrc" = Dest.envZsh "theme/"))) :=
  ⟨by decide,
   C9_copies_fixed_paths "linux" 3 ["install.py", "shell"] [.ok "1"]
     ".bashrc" (Dest.home ".bashrc") (by decide)⟩
